import Mathlib

/-!
Verification of the freight-rates quote-acquisition and validation pipeline.

The definitions below are a shallow embedding of the JavaScript sources:

* `src/backend/src/validation/validator.js` — `validateCandidate`,
  `validateCandidates`;
* `src/backend/src/scraper/maersk.js` — `detectCaptcha`,
  `extractPricingCandidates`, and the control flow of
  `scrapeMaerskSpotRate`.

JavaScript numbers are modelled as `ℚ`, epoch-millisecond dates as `ℤ`
(the ambient clock `new Date()` becomes an explicit `now` parameter),
absent or `null` fields as `Option`, and the JavaScript `x || d` idiom on
numeric fields (where both absence and the value `0` are falsy) as
`jsOrQ`.  Browser interactions are recorded as an explicit action trace,
and every runtime probe of the page (element visibility, URL checks,
wait outcomes) is an input field of `ScrapeEnv`, listed in the order the
source performs the probes.
-/

namespace FreightRates

-- Batteries marks the arithmetic of `Rat` irreducible; restore
-- reducibility so that concrete runs of the embedded code can be settled
-- by `decide`.
attribute [local semireducible] Rat.add Rat.sub Rat.mul Rat.inv Rat.ofScientific

/-! ### JavaScript-semantics helpers -/

/-- The JavaScript expression `x || d` for a numeric field `x` that may be
absent: both `undefined`/`null` and the number `0` are falsy, so either
yields the default `d`. -/
def jsOrQ (x : Option ℚ) (d : ℚ) : ℚ :=
  match x with
  | none => d
  | some v => if v = 0 then d else v

/-- Truthiness of an optional JavaScript number (used for
`if (historicalMedian && ...)`). -/
def jsTruthyQ (x : Option ℚ) : Bool :=
  match x with
  | none => false
  | some v => v != 0

/-- The apostrophe character, written via its code point. -/
def apos : String := (Char.ofNat 39).toString

/-- The JavaScript `s.toUpperCase()` on ASCII strings, phrased over the
character list so that it reduces in the kernel. -/
def jsToUpper (s : String) : String := String.mk (s.data.map Char.toUpper)

/-- The JavaScript `s.toLowerCase()` on ASCII strings, phrased over the
character list so that it reduces in the kernel. -/
def jsToLower (s : String) : String := String.mk (s.data.map Char.toLower)

/-- Decides whether `pre` is a prefix of `l`. -/
def listPrefixOf : List Char → List Char → Bool
  | [], _ => true
  | _ :: _, [] => false
  | a :: as, b :: bs => a = b && listPrefixOf as bs

/-- Substring search over the character list of a string. -/
def containsAux (l pat : List Char) : Bool :=
  match l with
  | [] => pat.isEmpty
  | _ :: tl => listPrefixOf pat l || containsAux tl pat

/-- The JavaScript `s.includes(pat)` substring test. -/
def strContains (s pat : String) : Bool :=
  containsAux s.data pat.data

/-! ### Validator data model (validator.js) -/

/-- A scraped price candidate, restricted to the fields the validator
reads.  `valid_until` is the parsed date in epoch milliseconds (`none`
models an absent or falsy field). -/
structure Candidate where
  price : Option ℚ := none
  currency : Option String := none
  valid_until : Option ℤ := none
  transit_days : Option ℚ := none
  confidence_score : Option ℚ := none
  deriving Repr, DecidableEq

/-- The validation context object `opts`.  All fields are optional, as in
the source where `opts` defaults to `{}`. -/
structure ValidationOpts where
  historical_median : Option ℚ := none
  baseline_samples : Option ℚ := none
  deviation_pct : Option ℚ := none
  min_transit_days : Option ℚ := none
  max_transit_days : Option ℚ := none
  min_baseline : Option ℚ := none
  auto_accept_threshold : Option ℚ := none
  deriving Repr, DecidableEq

/-- The object returned by `validateCandidate`. -/
structure ValidationResult where
  valid : Bool
  issues : List String
  outcome : String
  confidence : ℚ
  deriving Repr, DecidableEq

/-- The `VALID_CURRENCIES` whitelist of validator.js. -/
def VALID_CURRENCIES : List String :=
  ["USD", "EUR", "GBP", "CNY", "JPY", "KRW", "SGD", "AED",
   "INR", "TRY", "NGN", "ZAR", "BRL", "CAD", "AUD"]

def DEFAULT_DEVIATION_PCT : ℚ := 30
def DEFAULT_BASELINE_SAMPLES : ℚ := 5
def DEFAULT_AUTO_ACCEPT : ℚ := 0.8
def DEFAULT_FLAG_REVIEW : ℚ := 0.5

/-- The issue-collecting phase of `validateCandidate(candidate, opts)`
(checks 1 to 5 of validator.js, in source order).  The parameter `now`
is the value of `new Date()` at the moment of the call (epoch
milliseconds): the source reads the ambient clock in its `valid_until`
check. -/
def computeIssues (candidate : Candidate) (opts : ValidationOpts)
    (now : ℤ) : List String :=
  let historicalMedian := opts.historical_median
  let baselineSamples := jsOrQ opts.baseline_samples 0
  let deviationPct := jsOrQ opts.deviation_pct DEFAULT_DEVIATION_PCT
  let minTransit := jsOrQ opts.min_transit_days 1
  let maxTransit := jsOrQ opts.max_transit_days 90
  -- 1. Price > 0: `!candidate.price || candidate.price <= 0`
  --    (an absent price is falsy; `undefined <= 0` is false in JS, so the
  --    combined condition is: absent, zero, or nonpositive).
  let issue1 : List String :=
    match candidate.price with
    | none => ["PRICE_ZERO_OR_NEGATIVE"]
    | some p => if p ≤ 0 then ["PRICE_ZERO_OR_NEGATIVE"] else []
  -- 2. Valid currency: `!candidate.currency || !VALID_CURRENCIES.includes(candidate.currency.toUpperCase())`
  let issue2 : List String :=
    match candidate.currency with
    | none => ["CURRENCY_INVALID"]
    | some c => if VALID_CURRENCIES.contains (jsToUpper c) then [] else ["CURRENCY_INVALID"]
  -- 3. valid_until must be in the future: `if (candidate.valid_until) { if (vu <= new Date()) ... }`
  let issue3 : List String :=
    match candidate.valid_until with
    | none => []
    | some vu => if vu ≤ now then ["VALID_UNTIL_PAST"] else []
  -- 4. Transit days within bounds: `if (candidate.transit_days != null)`
  let issue4 : List String :=
    match candidate.transit_days with
    | none => []
    | some t =>
      if t < minTransit ∨ t > maxTransit then ["TRANSIT_DAYS_OUT_OF_RANGE"] else []
  -- 5. Deviation check: `if (historicalMedian && baselineSamples >= (opts.min_baseline || DEFAULT_BASELINE_SAMPLES))`.
  --    With an absent price the JS subtraction yields NaN and the
  --    comparison `NaN > deviationPct` is false, so no issue is pushed.
  let issue5 : List String :=
    if jsTruthyQ historicalMedian ∧
        baselineSamples ≥ jsOrQ opts.min_baseline DEFAULT_BASELINE_SAMPLES then
      match historicalMedian, candidate.price with
      | some m, some p =>
        if |p - m| / m * 100 > deviationPct then ["DEVIATION_EXCEEDED"] else []
      | _, _ => []
    else []
  issue1 ++ issue2 ++ issue3 ++ issue4 ++ issue5

/-- Embedding of `validateCandidate(candidate, opts)` from validator.js:
collect the issues, then determine the outcome from the confidence. -/
def validateCandidate (candidate : Candidate) (opts : ValidationOpts)
    (now : ℤ) : ValidationResult :=
  let issues := computeIssues candidate opts now
  -- Determine outcome: `const confidence = candidate.confidence_score || 0`
  let confidence := jsOrQ candidate.confidence_score 0
  let outcome :=
    if issues.length > 0 then
      if confidence < DEFAULT_FLAG_REVIEW then "REJECT" else "FLAG_REVIEW"
    else if confidence ≥ jsOrQ opts.auto_accept_threshold DEFAULT_AUTO_ACCEPT then
      "AUTO_ACCEPT"
    else if confidence ≥ DEFAULT_FLAG_REVIEW then "FLAG_REVIEW"
    else "REJECT"
  { valid := issues.length = 0
    issues := issues
    outcome := outcome
    confidence := confidence }

/-! ### validateCandidates and its sort (validator.js, lines 94-104) -/

/-- The `order` object literal `{ AUTO_ACCEPT: 0, FLAG_REVIEW: 1, REJECT: 2 }`. -/
def outcomeOrderMap : List (String × ℚ) :=
  [("AUTO_ACCEPT", 0), ("FLAG_REVIEW", 1), ("REJECT", 2)]

/-- The sort key `order[outcome] || 9`: a missing key (`undefined`) and
the value `0` are both falsy, so both fall back to `9`. -/
def sortKey (outcome : String) : ℚ :=
  jsOrQ (outcomeOrderMap.lookup outcome) 9

/-- Inserts `x` after every already-placed element whose key is not
larger, matching the stable behaviour of `Array.prototype.sort` with the
comparator `(a, b) => key a - key b`. -/
def insertByKey {α : Type} (key : α → ℚ) (x : α) : List α → List α
  | [] => [x]
  | y :: ys => if key y ≤ key x then y :: insertByKey key x ys else x :: y :: ys

/-- Stable insertion sort by a rational key. -/
def stableSortByKey {α : Type} (key : α → ℚ) : List α → List α
  | [] => []
  | x :: xs => insertByKey key x (stableSortByKey key xs)

/-- A candidate together with its attached `validation` object, as built
by the `.map` step of `validateCandidates`. -/
structure ValidatedCandidate where
  candidate : Candidate
  validation : ValidationResult
  deriving Repr, DecidableEq

/-- Embedding of `validateCandidates(candidates, opts)`: validate each
candidate, then sort by `order[outcome] || 9`. -/
def validateCandidates (candidates : List Candidate) (opts : ValidationOpts)
    (now : ℤ) : List ValidatedCandidate :=
  stableSortByKey (fun vc => sortKey vc.validation.outcome)
    (candidates.map (fun c => ⟨c, validateCandidate c opts now⟩))

/-! ### Result extraction (maersk.js, extractPricingCandidates) -/

/-- A price candidate as constructed by `extractPricingCandidates`.
`valid_until` is `new Date(Date.now() + 7 * 24 * 60 * 60 * 1000)` in
epoch milliseconds; optional component prices are `null` when their
regexes did not match. -/
structure PriceCandidate where
  price : ℚ
  total_price : ℚ
  ocean_freight : Option ℚ := none
  origin_thc : Option ℚ := none
  destination_thc : Option ℚ := none
  currency : String
  transit_days : Option ℚ
  service_type : String
  carrier : String
  valid_until : ℤ
  confidence_score : ℚ
  snapshot_id : Option String
  deriving Repr, DecidableEq

/-- The outcome of the regular-expression scans the source performs on
one price card text: the `USD`-amount match (comma-stripped and parsed),
the `(\d+)\s*days?` match, the case-insensitive `express`/`economy`
substring tests, and the `ocean`/`thc` component matches. -/
structure CardScan where
  priceMatch : Option ℚ
  transitMatch : Option ℚ
  hasExpress : Bool := false
  hasEconomy : Bool := false
  oceanMatch : Option ℚ := none
  thcMatch : Option ℚ := none
  deriving Repr, DecidableEq

/-- The page content visible to `extractPricingCandidates`: the per-card
scans (in page order) and, for the whole-page text fallback, the
page-text price and transit matches. -/
structure PageScan where
  cards : List CardScan
  pageTextPrice : Option ℚ := none
  pageTextTransit : Option ℚ := none
  deriving Repr, DecidableEq

/-- The body of the per-card loop of `extractPricingCandidates`: skip the
card when the price regex fails (`if (!priceMatch) continue`) or the
parsed price is not positive (`if (isNaN(price) || price <= 0) continue`),
otherwise build the candidate with the fixed `confidence_score: 0.75`. -/
def extractFromCard (snapshotId : Option String) (now : ℤ)
    (card : CardScan) : Option PriceCandidate :=
  match card.priceMatch with
  | none => none
  | some price =>
    if price ≤ 0 then none
    else some
      { price := price
        total_price := price
        ocean_freight := card.oceanMatch
        origin_thc := card.thcMatch.map (fun v => v / 2)
        destination_thc := card.thcMatch.map (fun v => v / 2)
        currency := "USD"
        transit_days := card.transitMatch
        service_type :=
          if card.hasExpress then "EXPRESS"
          else if card.hasEconomy then "ECONOMY"
          else "STANDARD"
        carrier := "Maersk"
        valid_until := now + 7 * 24 * 60 * 60 * 1000
        confidence_score := 0.75
        snapshot_id := snapshotId }

/-- Embedding of `extractPricingCandidates(page, snapshotId)`: when no
price cards are found, fall back to the whole-page text scan with the
fixed `confidence_score: 0.6`; otherwise process the first five cards;
finally sort by price ascending. -/
def extractPricingCandidates (page : PageScan) (snapshotId : Option String)
    (now : ℤ) : List PriceCandidate :=
  let candidates : List PriceCandidate :=
    if page.cards.isEmpty then
      match page.pageTextPrice with
      | none => []
      | some price =>
        [{ price := price
           total_price := price
           currency := "USD"
           transit_days := page.pageTextTransit
           service_type := "STANDARD"
           carrier := "Maersk"
           valid_until := now + 7 * 24 * 60 * 60 * 1000
           confidence_score := 0.6
           snapshot_id := snapshotId }]
    else (page.cards.take 5).filterMap (extractFromCard snapshotId now)
  stableSortByKey (fun c => c.price) candidates

/-- Modelled from the spec, for comparison with the implementation: the
weighted-sum confidence score of section 4.4, computed from the four
boolean signals and rounded to two decimal places. -/
def specConfidenceScore (pricePositive currencyMajor transitInRange
    expiryPresent : Bool) : ℚ :=
  let total : ℚ := 0.10 +
    (if pricePositive then 0.35 else 0) +
    (if currencyMajor then 0.20 else 0) +
    (if transitInRange then 0.20 else 0) +
    (if expiryPresent then 0.15 else 0)
  (round (total * 100) : ℤ) / 100

/-! ### Page-state detection (maersk.js, detectCaptcha and inline checks) -/

/-- The page as inspected by the detection helpers: the visible body
text (`document.body.innerText`), the page title, and the presence of a
known captcha challenge iframe. -/
structure PageView where
  bodyText : String := ""
  title : String := ""
  hasCaptchaIframe : Bool := false
  deriving Repr, DecidableEq

/-- The `indicators` list of `detectCaptcha`. -/
def captchaIndicators : List String :=
  ["captcha", "i am not a robot", "i" ++ apos ++ "m not a robot",
   "recaptcha", "hcaptcha", "are you a human", "verify you are human"]

/-- Embedding of `detectCaptcha(page)`: an indicator occurring in the
lower-cased body text or title, or a known captcha iframe, signals a
captcha. -/
def detectCaptcha (page : PageView) : Bool :=
  let text := jsToLower page.bodyText
  let title := jsToLower page.title
  captchaIndicators.any (fun ind => strContains text ind || strContains title ind)
    || page.hasCaptchaIframe

/-- The inline access-denied check of `scrapeMaerskSpotRate`:
`pageTitle.includes(...) || pageText.includes(...) || ...` (the source
applies it to the first 1000 characters of the body text; the excerpt is
modelled by `bodyText`). -/
def accessDenied (page : PageView) : Bool :=
  strContains page.title "Access Denied"
    || strContains page.bodyText "Access Denied"
    || strContains page.bodyText ("you don" ++ apos ++ "t have permission")

/-! ### The scrape pipeline (maersk.js, scrapeMaerskSpotRate) -/

/-- The destructured parameter object of `scrapeMaerskSpotRate`, with the
source defaults. -/
structure ScrapeParams where
  from_port : String
  to_port : String
  container_type : String := "40FT"
  number_of_containers : ℚ := 1
  weight_per_container : Option ℚ := none
  weight_unit : String := "KG"
  ship_date : Option String := none
  commodity : Option String := none
  job_id : String := ""
  deriving Repr, DecidableEq

/-- The fallback credentials of maersk.js (`process.env.MAERSK_USERNAME
|| ...`); the environment override is irrelevant to the claims. -/
def MAERSK_USERNAME : String := "Eximsingpore"

def MAERSK_PASSWORD : String := "Qwerty@12345"

/-- The `CONTAINER_MAP` object literal. -/
def CONTAINER_MAP : List (String × String) :=
  [("20FT", "20" ++ apos ++ " Dry"),
   ("40FT", "40" ++ apos ++ " Dry"),
   ("40HC", "40" ++ apos ++ " High Cube Dry"),
   ("40HIGH", "40" ++ apos ++ " High Cube Dry"),
   ("45FT", "45" ++ apos ++ " High Cube Dry"),
   ("REEFER", "40" ++ apos ++ " Reefer High Cube"),
   ("OOG", "40" ++ apos ++ " Open Top")]

/-- One observable browser interaction of the pipeline.  `fillWeight` is
part of the vocabulary so that the absence of any weight entry is a
statement about the trace; no branch of the embedding (matching no line
of the source) ever emits it. -/
inductive ScrapeAction where
  | dismissCookieBanner : ScrapeAction
  | fillLoginUsername : String → ScrapeAction
  | fillLoginPassword : String → ScrapeAction
  | clickLoginSubmit : ScrapeAction
  | fillOrigin : String → ScrapeAction
  | fillDestination : String → ScrapeAction
  | selectDate : Option String → ScrapeAction
  | selectContainerType : String → ScrapeAction
  | fillWeight : ℚ → ScrapeAction
  | clickSearchSubmit : ScrapeAction
  deriving Repr, DecidableEq

/-- The value of the `Promise.race` between the results card, the error
banner and the no-results message after submission. -/
inductive WaitResult where
  | success : WaitResult
  | error : WaitResult
  | noResults : WaitResult
  | timeout : WaitResult
  deriving Repr, DecidableEq

/-- The environment of one scrape run: the result of every runtime probe
the source performs, listed in the order the probes happen.  Bounded
retries of an identical interaction (the login recovery, the
accounts.maersk.com fallback and the consent loop repeat the same
credential fill) are collapsed to one representative attempt, which
changes only the multiplicity of trace actions, never the outcome. -/
structure ScrapeEnv where
  /-- Whether `page.goto` succeeded within the two attempts. -/
  navigated : Bool := true
  /-- The page content right after navigation. -/
  page : PageView := {}
  /-- Whether the cookie banner was visible and dismissed. -/
  cookieBannerVisible : Bool := false
  /-- The login-block guard: the URL includes `accounts.maersk.com`, or
  the origin-destination component is not visible. -/
  needLogin : Bool := false
  /-- Whether a username input was found on the login page. -/
  usernameVisible : Bool := true
  /-- Whether a password input was found (`throw` when absent). -/
  passwordVisible : Bool := true
  /-- Whether the booking form appeared within the post-login poll loop. -/
  loginSuccess : Bool := true
  /-- Whether the clear-storage-and-retry recovery reached the form. -/
  retryLoginSuccess : Bool := false
  /-- Whether the booking component was visible after the explicit
  accounts.maersk.com fallback login. -/
  finalCheck : Bool := false
  /-- Whether an `/access_token` response with status at least 400 was
  observed by the response listener. -/
  oauthGrantFailed : Bool := false
  /-- In the no-username branch: whether the booking component became
  visible after the portal login heuristics. -/
  newBookingVisible : Bool := false
  /-- The result of `detectPortalLogin(page)` in that branch. -/
  portalLogin : Bool := false
  /-- In the portal branch: whether the alternative username, password
  and submit controls were visible and filled or clicked. -/
  altUsernameVisible : Bool := false
  altPasswordVisible : Bool := false
  /-- Whether the submit button of the booking search was disabled right
  after the origin and destination were filled (drives the optional date
  handling). -/
  submitDisabledAfterOD : Bool := false
  /-- Whether any submit-button selector matched. -/
  submitBtnFound : Bool := true
  /-- Whether the `disabled` attribute was still present after the extra
  wait. -/
  submitStillDisabled : Bool := false
  /-- The outcome of the post-submission race. -/
  waitResult : WaitResult := WaitResult.success
  /-- Whether the saved html includes `No routes available`. -/
  htmlNoRoutes : Bool := false
  /-- Whether the html or the error banner includes `Something went
  wrong`. -/
  somethingWentWrong : Bool := false
  /-- The results page as scanned by `extractPricingCandidates`. -/
  results : PageScan := { cards := [] }
  /-- The clock (`Date.now()`) during extraction. -/
  now : ℤ := 0
  /-- The uuid suffix `saveSnapshot` would generate. -/
  snapshotUuid : String := "u"
  /-- Whether, in the catch-all handler, a page was still open and its
  html could be read for a best-effort snapshot. -/
  catchHtmlOk : Bool := false
  deriving Repr, DecidableEq

/-- The object returned by `scrapeMaerskSpotRate`. -/
structure ScrapeOutcome where
  status : String
  error : Option String := none
  reason_code : Option String := none
  source : Option String := none
  snapshot_id : Option String := none
  candidates : List PriceCandidate := []
  deriving Repr, DecidableEq

/-- The snapshot identifier `saveSnapshot` returns - always non-null. -/
def saveSnapshot (env : ScrapeEnv) : Option String :=
  some ("snap_" ++ env.snapshotUuid)

/-- The best-effort snapshot of the catch-all handler: saved only when a
page was still open and its html was readable. -/
def catchSnapshot (env : ScrapeEnv) : Option String :=
  if env.catchHtmlOk then saveSnapshot env else none

/-- A FAILED outcome with empty candidates, as built at every failure
return site of the source. -/
def failOutcome (error reason : String) (snap : Option String) : ScrapeOutcome :=
  { status := "FAILED"
    error := some error
    reason_code := some reason
    snapshot_id := snap
    candidates := [] }

/-- The login block of `scrapeMaerskSpotRate` (entered when the URL is on
`accounts.maersk.com` or the booking component is not visible).  Returns
the extra trace and `some outcome` when the block returns early. -/
def loginStage (env : ScrapeEnv) : List ScrapeAction × Option ScrapeOutcome :=
  if ¬ env.needLogin then ([], none)
  else if env.usernameVisible then
    -- Fill username, then look for the password input.
    if ¬ env.passwordVisible then
      -- `throw new Error('Password input not found on login page')`,
      -- handled by the catch-all.
      ([ScrapeAction.fillLoginUsername MAERSK_USERNAME],
       some (failOutcome "Password input not found on login page"
          "SCRAPER_ERROR" (catchSnapshot env)))
    else
      let t := [ScrapeAction.fillLoginUsername MAERSK_USERNAME,
                ScrapeAction.fillLoginPassword MAERSK_PASSWORD,
                ScrapeAction.clickLoginSubmit]
      if env.loginSuccess then (t, none)
      else if env.retryLoginSuccess then (t, none)
      else
        -- Explicit accounts.maersk.com fallback login, then the final
        -- visibility check; when oauthGrantFailed, also the consent
        -- retries (which return FAILED even when they recover).
        let t := t ++ [ScrapeAction.fillLoginUsername MAERSK_USERNAME,
                       ScrapeAction.fillLoginPassword MAERSK_PASSWORD,
                       ScrapeAction.clickLoginSubmit]
        if env.finalCheck then (t, none)
        else
          (t, some (failOutcome
            (if env.oauthGrantFailed then
              "OAuth grant failed (access_token endpoint returned error). Check SSO flow / consent."
             else
              "Login failed or timed out after retry. Check credentials and session.")
            (if env.oauthGrantFailed then "OAUTH_GRANT_FAILED" else "LOGIN_FAILED")
            (saveSnapshot env)))
  else
    -- No username input: click login links and try the portal SSO
    -- heuristic selectors, then re-check the booking component.
    let t := (if env.altUsernameVisible then [ScrapeAction.fillLoginUsername MAERSK_USERNAME] else [])
      ++ (if env.altPasswordVisible then [ScrapeAction.fillLoginPassword MAERSK_PASSWORD] else [])
    if env.newBookingVisible then (t, none)
    else if env.portalLogin then
      (t, some (failOutcome
        (if env.oauthGrantFailed then "OAuth grant failed or portal SSO required."
         else "Portal/SSO login required.")
        (if env.oauthGrantFailed then "OAUTH_GRANT_FAILED" else "LOGIN_FAILED")
        (saveSnapshot env)))
    else
      (t, some (failOutcome "Unknown page state." "UNKNOWN_STATE" (saveSnapshot env)))

/-- The form-fill sequence: origin, destination, the optional date
handling, and the container-type selection.  No step reads
`weight_per_container` or `weight_unit`; the source never enters a
weight. -/
def formFillTrace (params : ScrapeParams) (env : ScrapeEnv) : List ScrapeAction :=
  [ScrapeAction.fillOrigin params.from_port,
   ScrapeAction.fillDestination params.to_port]
  ++ (if params.ship_date.isNone ∧ ¬ env.submitDisabledAfterOD then []
      else [ScrapeAction.selectDate params.ship_date])
  ++ (match CONTAINER_MAP.lookup params.container_type with
      | none => []
      | some label => [ScrapeAction.selectContainerType label])

/-- Embedding of the control flow of `scrapeMaerskSpotRate(params)`:
returns the trace of browser interactions together with the terminal
`ScrapeOutcome`.  The catch-all handler of the source maps any thrown
error to `SCRAPER_ERROR`. -/
def scrapeMaerskSpotRate (params : ScrapeParams) (env : ScrapeEnv) :
    List ScrapeAction × ScrapeOutcome :=
  if ¬ env.navigated then
    -- `throw new Error('Failed to navigate to Maersk after 2 attempts')`
    ([], failOutcome "Failed to navigate to Maersk after 2 attempts"
      "SCRAPER_ERROR" (catchSnapshot env))
  else
    let trace0 := if env.cookieBannerVisible then [ScrapeAction.dismissCookieBanner] else []
    if detectCaptcha env.page then
      (trace0, failOutcome "Captcha or anti-bot challenge detected on Maersk site"
        "CAPTCHA_DETECTED" (saveSnapshot env))
    else if accessDenied env.page then
      (trace0, failOutcome
        "Access Denied by Maersk (Bot detection). Try refreshing persistent session."
        "ACCESS_DENIED" (saveSnapshot env))
    else
      match loginStage env with
      | (ltrace, some outcome) => (trace0 ++ ltrace, outcome)
      | (ltrace, none) =>
        let ftrace := formFillTrace params env
        let t := trace0 ++ ltrace ++ ftrace
        if ¬ env.submitBtnFound then
          (t, failOutcome "Submit button not found on page" "FORM_ERROR" (saveSnapshot env))
        else if env.submitStillDisabled then
          (t, failOutcome
            "Submit button is disabled. Check if O/D and Date are properly selected."
            "FORM_INCOMPLETE" (saveSnapshot env))
        else
          let t := t ++ [ScrapeAction.clickSearchSubmit]
          let snap := saveSnapshot env
          if env.waitResult ≠ WaitResult.success then
            if env.waitResult = WaitResult.noResults ∨ env.htmlNoRoutes then
              (t, failOutcome "No routes available for this origin-destination pair."
                "NO_ROUTES" snap)
            else if env.somethingWentWrong then
              (t, failOutcome "Website reported: Something went wrong."
                "WEBSITE_ERROR" snap)
            else
              (t, failOutcome "Failed to load pricing results within timeout."
                "TIMEOUT" snap)
          else
            let candidates := extractPricingCandidates env.results snap env.now
            if candidates.isEmpty then
              (t, failOutcome "Could not extract pricing data from results page."
                "PARSE_ERROR" snap)
            else
              (t, { status := "SUCCESS"
                    source := some "MAERSK_LIVE"
                    snapshot_id := snap
                    candidates := candidates })

/-- The reason codes the failure sites of `scrapeMaerskSpotRate` actually
produce. -/
def producedReasonCodes : List String :=
  ["CAPTCHA_DETECTED", "ACCESS_DENIED", "OAUTH_GRANT_FAILED", "LOGIN_FAILED",
   "UNKNOWN_STATE", "FORM_ERROR", "FORM_INCOMPLETE", "NO_ROUTES",
   "WEBSITE_ERROR", "TIMEOUT", "PARSE_ERROR", "SCRAPER_ERROR"]

/-- The reason-code vocabulary the spec fixes in section 6. -/
def specReasonCodes : List String :=
  ["CAPTCHA_DETECTED", "ACCESS_DENIED", "LOGIN_FAILED", "RATE_LIMITED",
   "UNKNOWN_STATE", "FORM_ERROR", "FORM_INCOMPLETE", "NO_ROUTES",
   "WEBSITE_ERROR", "TIMEOUT", "PARSE_ERROR", "SCRAPER_ERROR",
   "ANTI_BOT_DETECTED"]

/-- Whether an action enters a weight value into the form. -/
def isFillWeight : ScrapeAction → Bool
  | ScrapeAction.fillWeight _ => true
  | _ => false

/-- Whether a trace contains a weight entry. -/
def hasWeightFill (tr : List ScrapeAction) : Bool :=
  tr.any isFillWeight

/-- Whether an action fills a login credential. -/
def isLoginCredentialFill : ScrapeAction → Bool
  | ScrapeAction.fillLoginUsername _ => true
  | ScrapeAction.fillLoginPassword _ => true
  | _ => false

/-- Whether an action is part of the booking-form fill. -/
def isFormFill : ScrapeAction → Bool
  | ScrapeAction.fillOrigin _ => true
  | ScrapeAction.fillDestination _ => true
  | ScrapeAction.selectDate _ => true
  | ScrapeAction.selectContainerType _ => true
  | ScrapeAction.fillWeight _ => true
  | ScrapeAction.clickSearchSubmit => true
  | _ => false

/-! ### Helper lemmas -/

theorem mem_insertByKey {α : Type} (key : α → ℚ) (x a : α) (l : List α) :
    a ∈ insertByKey key x l ↔ a = x ∨ a ∈ l := by
  induction l with
  | nil => simp [insertByKey]
  | cons y ys ih =>
    by_cases h : key y ≤ key x
    · simp only [insertByKey, h, if_true, List.mem_cons, ih]
      try tauto
    · simp only [insertByKey, h, if_false, List.mem_cons]
      try tauto

theorem mem_stableSortByKey {α : Type} (key : α → ℚ) (a : α) (l : List α) :
    a ∈ stableSortByKey key l ↔ a ∈ l := by
  induction l with
  | nil => simp [stableSortByKey]
  | cons x xs ih => simp [stableSortByKey, mem_insertByKey, ih]

theorem hasWeightFill_nil : hasWeightFill [] = false := rfl

theorem hasWeightFill_cons (a : ScrapeAction) (l : List ScrapeAction) :
    hasWeightFill (a :: l) = (isFillWeight a || hasWeightFill l) := by
  simp [hasWeightFill]

theorem hasWeightFill_append (l1 l2 : List ScrapeAction) :
    hasWeightFill (l1 ++ l2) = (hasWeightFill l1 || hasWeightFill l2) := by
  simp [hasWeightFill]

theorem hasWeightFill_loginStage (env : ScrapeEnv) :
    hasWeightFill (loginStage env).1 = false := by
  unfold loginStage
  split_ifs <;> simp [hasWeightFill, isFillWeight]

theorem hasWeightFill_formFillTrace (params : ScrapeParams) (env : ScrapeEnv) :
    hasWeightFill (formFillTrace params env) = false := by
  unfold formFillTrace
  split_ifs <;> cases CONTAINER_MAP.lookup params.container_type <;>
    simp [hasWeightFill, isFillWeight]

theorem loginStage_reason_codes (env : ScrapeEnv) :
    (loginStage env).2 = none
    ∨ ∃ o, (loginStage env).2 = some o ∧ o.status = "FAILED"
        ∧ o.reason_code ∈ producedReasonCodes.map some := by
  unfold loginStage
  split_ifs <;> simp [failOutcome, producedReasonCodes]

/-! ### Claim theorems -/

/-- C1: the claim says `validateCandidates` orders AUTO_ACCEPT first, then
FLAG_REVIEW, then REJECT.  The comparator key `order[outcome] || 9` maps
AUTO_ACCEPT (priority 0, which is falsy) to 9, so a clean high-confidence
candidate sorts after a FLAG_REVIEW one: on a two-candidate input the
returned outcome order is FLAG_REVIEW before AUTO_ACCEPT, contradicting
both the claim and the intent of the order map in the source. -/
theorem validateCandidates_auto_accept_sorted_last :
    (validateCandidates
      [{ price := some 1000, currency := some "USD", transit_days := some 12,
         confidence_score := some 0.9 },
       { price := some 1000, currency := some "USD", transit_days := some 12,
         confidence_score := some 0.6 }] {} 0).map
      (fun vc => vc.validation.outcome) = ["FLAG_REVIEW", "AUTO_ACCEPT"]
    ∧ sortKey "AUTO_ACCEPT" = 9 ∧ sortKey "FLAG_REVIEW" = 1 ∧ sortKey "REJECT" = 2 := by
  decide

/-- C2: the outcome of `validateCandidate` is the claimed three-way
partition: with issues present, REJECT exactly when the confidence is
below 0.5 and FLAG_REVIEW otherwise; with no issues, AUTO_ACCEPT at or
above the auto-accept threshold (default 0.8), FLAG_REVIEW at or above
0.5, REJECT below; and no other outcome value ever occurs. -/
theorem validateCandidate_outcome_partition (c : Candidate) (opts : ValidationOpts) (now : ℤ) :
    ((validateCandidate c opts now).outcome =
      if (validateCandidate c opts now).issues.isEmpty then
        (if jsOrQ c.confidence_score 0 ≥ jsOrQ opts.auto_accept_threshold 0.8 then "AUTO_ACCEPT"
         else if jsOrQ c.confidence_score 0 ≥ 0.5 then "FLAG_REVIEW"
         else "REJECT")
      else (if jsOrQ c.confidence_score 0 < 0.5 then "REJECT" else "FLAG_REVIEW"))
    ∧ ((validateCandidate c opts now).outcome = "AUTO_ACCEPT"
        ∨ (validateCandidate c opts now).outcome = "FLAG_REVIEW"
        ∨ (validateCandidate c opts now).outcome = "REJECT") := by
  unfold validateCandidate
  simp only [DEFAULT_AUTO_ACCEPT, DEFAULT_FLAG_REVIEW]
  cases h : computeIssues c opts now with
  | nil =>
    simp only [h, List.isEmpty_nil, List.length_nil, gt_iff_lt, lt_self_iff_false,
      if_false, if_true, ite_true, ite_false, Nat.lt_irrefl]
    split_ifs <;> simp_all
  | cons a l =>
    simp only [h, List.isEmpty_cons, List.length_cons, Nat.succ_pos, gt_iff_lt,
      if_false, if_true, ite_true, ite_false]
    split_ifs <;> simp_all

/-- C3 counterexample: a card-extracted candidate with positive price,
currency USD, transit_days 12 and a future valid_until - exactly the
configuration the spec scores at 0.90 - carries the fixed
confidence_score 0.75, and the spec's own weighted sum for these signals
evaluates to 1, not 0.90.  No weighted-sum scoring exists in the
extraction code. -/
theorem extraction_confidence_not_weighted_sum :
    extractPricingCandidates
        { cards := [{ priceMatch := some 2500, transitMatch := some 12 }] }
        (some "snap_u") 0
      = [{ price := 2500, total_price := 2500, currency := "USD",
           transit_days := some 12, service_type := "STANDARD",
           carrier := "Maersk", valid_until := 604800000,
           confidence_score := 0.75, snapshot_id := some "snap_u" }]
    ∧ specConfidenceScore true true true true = 1
    ∧ (0.75 : ℚ) ≠ 0.9 ∧ (0.75 : ℚ) ≠ 1 := by
  decide

/-- C3 amended: every candidate returned by `extractPricingCandidates`
carries the fixed per-tier confidence score of its extraction tier: 0.6
for the whole-page text fallback (no cards found) and 0.75 for card
extraction; no weighted sum of boolean signals is computed. -/
theorem extracted_confidence_tier_constant (page : PageScan) (sid : Option String)
    (now : ℤ) (c : PriceCandidate)
    (hc : c ∈ extractPricingCandidates page sid now) :
    c.confidence_score = if page.cards.isEmpty then 0.6 else 0.75 := by
  unfold extractPricingCandidates at hc
  rw [mem_stableSortByKey] at hc
  by_cases h : page.cards.isEmpty
  · rw [if_pos h] at hc ⊢
    cases hpt : page.pageTextPrice with
    | none => rw [hpt] at hc; simp at hc
    | some price =>
      rw [hpt] at hc
      simp only [List.mem_singleton] at hc
      rw [hc]
  · rw [if_neg h] at hc ⊢
    rcases List.mem_filterMap.mp hc with ⟨card, _, hex⟩
    unfold extractFromCard at hex
    split at hex
    · simp at hex
    · split at hex
      · simp at hex
      · simp only [Option.some_inj] at hex
        rw [← hex]

/-- C3 amended, witness: on a one-card page the extracted candidate is a
member of the result and the amended statement gives it confidence 0.75. -/
theorem extracted_confidence_tier_constant_witness :
    ({ price := 2500, total_price := 2500, currency := "USD",
       transit_days := some 12, service_type := "STANDARD",
       carrier := "Maersk", valid_until := 604800000,
       confidence_score := 0.75, snapshot_id := some "snap_u" } : PriceCandidate)
      ∈ extractPricingCandidates
          { cards := [{ priceMatch := some 2500, transitMatch := some 12 }] }
          (some "snap_u") 0
    ∧ ({ price := 2500, total_price := 2500, currency := "USD",
         transit_days := some 12, service_type := "STANDARD",
         carrier := "Maersk", valid_until := 604800000,
         confidence_score := 0.75, snapshot_id := some "snap_u" } : PriceCandidate).confidence_score
      = if ({ cards := [{ priceMatch := some 2500, transitMatch := some 12 }] } : PageScan).cards.isEmpty
          then 0.6 else 0.75 :=
  ⟨by decide,
   extracted_confidence_tier_constant
     { cards := [{ priceMatch := some 2500, transitMatch := some 12 }] }
     (some "snap_u") 0 _ (by decide)⟩

/-- C4 counterexample: a full successful scrape requested with
weight_per_container 100 in pounds performs no form interaction that
enters a weight at all - in particular none entering the claimed
converted value round(100 * 0.453592, 2) = 45.36 - and its interaction
trace is identical to the same request with no weight in kilograms. -/
theorem weight_never_entered_counterexample :
    (scrapeMaerskSpotRate
        { from_port := "SGSIN", to_port := "NLRTM",
          weight_per_container := some 100, weight_unit := "LB", job_id := "j1" }
        { results := { cards := [{ priceMatch := some 2500, transitMatch := some 12 }] } }).2.status
      = "SUCCESS"
    ∧ ((round ((100 * 0.453592 : ℚ) * 100) : ℤ) : ℚ) / 100 = 45.36
    ∧ hasWeightFill
        (scrapeMaerskSpotRate
          { from_port := "SGSIN", to_port := "NLRTM",
            weight_per_container := some 100, weight_unit := "LB", job_id := "j1" }
          { results := { cards := [{ priceMatch := some 2500, transitMatch := some 12 }] } }).1
      = false
    ∧ ScrapeAction.fillWeight 45.36 ∉
        (scrapeMaerskSpotRate
          { from_port := "SGSIN", to_port := "NLRTM",
            weight_per_container := some 100, weight_unit := "LB", job_id := "j1" }
          { results := { cards := [{ priceMatch := some 2500, transitMatch := some 12 }] } }).1
    ∧ (scrapeMaerskSpotRate
        { from_port := "SGSIN", to_port := "NLRTM",
          weight_per_container := some 100, weight_unit := "LB", job_id := "j1" }
        { results := { cards := [{ priceMatch := some 2500, transitMatch := some 12 }] } }).1
      = (scrapeMaerskSpotRate
          { from_port := "SGSIN", to_port := "NLRTM",
            weight_per_container := none, weight_unit := "KG", job_id := "j1" }
          { results := { cards := [{ priceMatch := some 2500, transitMatch := some 12 }] } }).1 := by
  decide

set_option maxHeartbeats 2000000 in
/-- C4 amended: `scrapeMaerskSpotRate` never uses `weight_per_container`
or `weight_unit` - the whole run (trace and outcome) is unchanged under
any modification of the two fields, and no run enters any weight into
the form. -/
theorem scrape_weight_unused (params : ScrapeParams) (env : ScrapeEnv)
    (w : Option ℚ) (u : String) :
    scrapeMaerskSpotRate { params with weight_per_container := w, weight_unit := u } env
      = scrapeMaerskSpotRate params env
    ∧ hasWeightFill (scrapeMaerskSpotRate params env).1 = false := by
  constructor
  · have hf : formFillTrace { params with weight_per_container := w, weight_unit := u } env
        = formFillTrace params env := rfl
    unfold scrapeMaerskSpotRate
    rw [hf]
  · unfold scrapeMaerskSpotRate
    split_ifs <;> try (simp [hasWeightFill, isFillWeight]; done)
    all_goals {
      rcases hls : loginStage env with ⟨lt, lo⟩
      have hlt : hasWeightFill lt = false := by
        have h2 := hasWeightFill_loginStage env
        rw [hls] at h2
        exact h2
      cases lo with
      | some o =>
        simp [hasWeightFill_cons, hasWeightFill_append, hasWeightFill_nil, hlt,
          isFillWeight]
      | none =>
        simp_all [hasWeightFill_cons, hasWeightFill_append, hasWeightFill_nil,
          hasWeightFill_formFillTrace, isFillWeight, apply_ite Prod.fst, ite_self]
    }

/-- C5 counterexample: a run whose login fails after an observed OAuth
access_token error returns status FAILED with reason_code
OAUTH_GRANT_FAILED, which is not in the fixed vocabulary the claim
lists. -/
theorem oauth_grant_failed_outside_spec_vocabulary :
    (scrapeMaerskSpotRate { from_port := "SGSIN", to_port := "NLRTM" }
        { needLogin := true, loginSuccess := false, oauthGrantFailed := true }).2.status
      = "FAILED"
    ∧ (scrapeMaerskSpotRate { from_port := "SGSIN", to_port := "NLRTM" }
        { needLogin := true, loginSuccess := false, oauthGrantFailed := true }).2.reason_code
      = some "OAUTH_GRANT_FAILED"
    ∧ "OAUTH_GRANT_FAILED" ∉ specReasonCodes := by
  decide

set_option maxHeartbeats 2000000 in
/-- C5 amended: every FAILED outcome of `scrapeMaerskSpotRate` carries a
reason_code from the twelve-element set the code actually produces, which
adds OAUTH_GRANT_FAILED to the spec vocabulary and never contains
RATE_LIMITED or ANTI_BOT_DETECTED. -/
theorem scrape_failed_reason_code_produced (params : ScrapeParams) (env : ScrapeEnv)
    (h : (scrapeMaerskSpotRate params env).2.status = "FAILED") :
    (scrapeMaerskSpotRate params env).2.reason_code ∈ producedReasonCodes.map some := by
  unfold scrapeMaerskSpotRate at h ⊢
  split_ifs at h ⊢ <;>
    try (simp [failOutcome, producedReasonCodes]; done)
  all_goals {
    rcases hls : loginStage env with ⟨lt, lo⟩
    have hlo := loginStage_reason_codes env
    rw [hls] at hlo
    cases lo with
    | some o =>
      simp_all
    | none =>
      simp_all [failOutcome, producedReasonCodes, apply_ite Prod.snd,
        apply_ite ScrapeOutcome.status, apply_ite ScrapeOutcome.reason_code]
  }

/-- C5 amended, witness: a run with no submit button fails with FORM_ERROR,
which the amended statement places in the produced vocabulary. -/
theorem scrape_failed_reason_code_produced_witness :
    (scrapeMaerskSpotRate { from_port := "SGSIN", to_port := "NLRTM" }
        { submitBtnFound := false }).2.status = "FAILED"
    ∧ (scrapeMaerskSpotRate { from_port := "SGSIN", to_port := "NLRTM" }
        { submitBtnFound := false }).2.reason_code ∈ producedReasonCodes.map some :=
  ⟨by decide,
   scrape_failed_reason_code_produced { from_port := "SGSIN", to_port := "NLRTM" }
     { submitBtnFound := false } (by decide)⟩

/-- C6: when the page body text visible after navigation contains the
captcha indicator recaptcha, the pipeline returns FAILED with
reason_code CAPTCHA_DETECTED and a saved (non-null) snapshot, and its
trace contains no login credential fill and no form fill: the captcha
check precedes the login and form stages. -/
theorem captcha_short_circuit (params : ScrapeParams) (env : ScrapeEnv)
    (hnav : env.navigated = true)
    (hcap : strContains (jsToLower env.page.bodyText) "recaptcha" = true) :
    (scrapeMaerskSpotRate params env).2 =
      failOutcome "Captcha or anti-bot challenge detected on Maersk site"
        "CAPTCHA_DETECTED" (saveSnapshot env)
    ∧ (saveSnapshot env).isSome = true
    ∧ (∀ a ∈ (scrapeMaerskSpotRate params env).1,
        isLoginCredentialFill a = false ∧ isFormFill a = false) := by
  have hdc : detectCaptcha env.page = true := by
    unfold detectCaptcha
    simp only [Bool.or_eq_true, List.any_eq_true]
    refine Or.inl ⟨"recaptcha", ?_, ?_⟩
    · simp [captchaIndicators]
    · simp [hcap]
  unfold scrapeMaerskSpotRate
  rw [hnav, hdc]
  simp only [Bool.not_true, if_true, if_false, Bool.false_eq_true, ite_true, ite_false]
  refine ⟨rfl, rfl, ?_⟩
  cases h : env.cookieBannerVisible <;>
    simp [isLoginCredentialFill, isFormFill]

/-- C6 witness: a concrete page whose visible text mentions reCAPTCHA
satisfies the hypotheses and yields the captcha failure outcome. -/
theorem captcha_short_circuit_witness :
    strContains
        (jsToLower ({ bodyText := "Please complete the reCAPTCHA to continue" } : PageView).bodyText)
        "recaptcha" = true
    ∧ (scrapeMaerskSpotRate { from_port := "SGSIN", to_port := "NLRTM" }
        { page := { bodyText := "Please complete the reCAPTCHA to continue" } }).2 =
      failOutcome "Captcha or anti-bot challenge detected on Maersk site"
        "CAPTCHA_DETECTED"
        (saveSnapshot { page := { bodyText := "Please complete the reCAPTCHA to continue" } }) :=
  ⟨by decide,
   (captcha_short_circuit { from_port := "SGSIN", to_port := "NLRTM" }
     { page := { bodyText := "Please complete the reCAPTCHA to continue" } }
     rfl (by decide)).1⟩

/-- C7: with a truthy historical median m, enough baseline samples and a
present price p, DEVIATION_EXCEEDED is reported exactly when
abs(p - m) / m * 100 strictly exceeds the deviation threshold (default
30). -/
theorem deviation_exceeded_iff (c : Candidate) (opts : ValidationOpts) (now : ℤ)
    (m p : ℚ)
    (hm : opts.historical_median = some m) (hm0 : m ≠ 0)
    (hs : jsOrQ opts.baseline_samples 0 ≥ jsOrQ opts.min_baseline DEFAULT_BASELINE_SAMPLES)
    (hp : c.price = some p) :
    ("DEVIATION_EXCEEDED" ∈ (validateCandidate c opts now).issues ↔
      |p - m| / m * 100 > jsOrQ opts.deviation_pct DEFAULT_DEVIATION_PCT) := by
  have hiss : (validateCandidate c opts now).issues = computeIssues c opts now := rfl
  rw [hiss]
  obtain ⟨price, currency, vu, td, cs⟩ := c
  simp only at hp
  subst hp
  unfold computeIssues
  rw [hm]
  have ht : jsTruthyQ (some m) = true := by simp [jsTruthyQ, hm0]
  simp only [ht, hs, true_and, if_true, ite_true]
  cases currency <;> cases vu <;> cases td <;>
    split_ifs <;> simp_all

/-- C7 witness: with historical_median 1000, baseline_samples 10 and the
default threshold, a candidate priced 1350 (35 percent above) gets the
DEVIATION_EXCEEDED issue and a candidate priced 1250 (25 percent above)
does not. -/
theorem deviation_exceeded_iff_witness :
    ({ historical_median := some 1000, baseline_samples := some 10 } : ValidationOpts).historical_median
      = some 1000
    ∧ (1000 : ℚ) ≠ 0
    ∧ jsOrQ ({ historical_median := some 1000, baseline_samples := some 10 } : ValidationOpts).baseline_samples 0
      ≥ jsOrQ ({ historical_median := some 1000, baseline_samples := some 10 } : ValidationOpts).min_baseline
          DEFAULT_BASELINE_SAMPLES
    ∧ "DEVIATION_EXCEEDED" ∈
        (validateCandidate
          { price := some 1350, currency := some "USD", confidence_score := some 0.9 }
          { historical_median := some 1000, baseline_samples := some 10 } 0).issues
    ∧ "DEVIATION_EXCEEDED" ∉
        (validateCandidate
          { price := some 1250, currency := some "USD", confidence_score := some 0.9 }
          { historical_median := some 1000, baseline_samples := some 10 } 0).issues := by
  refine ⟨rfl, by decide, by decide, ?_, ?_⟩
  · exact (deviation_exceeded_iff
      { price := some 1350, currency := some "USD", confidence_score := some 0.9 }
      { historical_median := some 1000, baseline_samples := some 10 } 0 1000 1350
      rfl (by decide) (by decide) rfl).mpr (by decide)
  · intro hmem
    exact absurd ((deviation_exceeded_iff
      { price := some 1250, currency := some "USD", confidence_score := some 0.9 }
      { historical_median := some 1000, baseline_samples := some 10 } 0 1000 1250
      rfl (by decide) (by decide) rfl).mp hmem) (by decide)

/-- C8: when the run reaches submission, the post-submission wait
succeeds, and extraction yields no candidate, the pipeline returns a
normal FAILED outcome with reason_code PARSE_ERROR, an empty candidates
array and a non-null snapshot_id. -/
theorem parse_error_on_empty_extraction (params : ScrapeParams) (env : ScrapeEnv)
    (hnav : env.navigated = true)
    (hcap : detectCaptcha env.page = false)
    (hden : accessDenied env.page = false)
    (hlog : (loginStage env).2 = none)
    (hbtn : env.submitBtnFound = true)
    (hdis : env.submitStillDisabled = false)
    (hw : env.waitResult = WaitResult.success)
    (hex : extractPricingCandidates env.results (saveSnapshot env) env.now = []) :
    (scrapeMaerskSpotRate params env).2 =
      failOutcome "Could not extract pricing data from results page."
        "PARSE_ERROR" (saveSnapshot env)
    ∧ (saveSnapshot env).isSome = true := by
  unfold scrapeMaerskSpotRate
  rcases hls : loginStage env with ⟨lt, lo⟩
  rw [hls] at hlog
  simp only at hlog
  subst hlog
  rw [hnav, hcap, hden]
  constructor
  · simp [hbtn, hdis, hw, hex]
  · simp [saveSnapshot]

/-- C8 witness: the default environment (valid session, successful wait,
empty results page) satisfies every hypothesis and produces the
PARSE_ERROR outcome with a non-null snapshot. -/
theorem parse_error_on_empty_extraction_witness :
    (scrapeMaerskSpotRate { from_port := "SGSIN", to_port := "NLRTM" } {}).2 =
      failOutcome "Could not extract pricing data from results page."
        "PARSE_ERROR" (saveSnapshot {})
    ∧ (saveSnapshot ({} : ScrapeEnv)).isSome = true :=
  parse_error_on_empty_extraction { from_port := "SGSIN", to_port := "NLRTM" } {}
    rfl (by decide) (by decide) (by decide) rfl rfl rfl (by decide)

/-- C9 counterexample: `validateCandidate` reads the ambient clock - on a
candidate with a valid_until timestamp, two calls with identical
candidate and options, made before and after the timestamp, return
different ValidationResults. -/
theorem validateCandidate_clock_dependent_counterexample :
    validateCandidate
      { price := some 1000, currency := some "USD", valid_until := some 1000,
        confidence_score := some 0.9 } {} 0
    ≠ validateCandidate
      { price := some 1000, currency := some "USD", valid_until := some 1000,
        confidence_score := some 0.9 } {} 2000 := by
  decide

/-- C9 amended: `validateCandidate` is deterministic in candidate,
options and the clock instant; for every candidate without a valid_until
value it is a pure function of its two arguments - the result does not
depend on the time of the call. -/
theorem validateCandidate_clock_independent (c : Candidate) (opts : ValidationOpts)
    (now nowOther : ℤ) (h : c.valid_until = none) :
    validateCandidate c opts now = validateCandidate c opts nowOther := by
  unfold validateCandidate computeIssues
  rw [h]

/-- C9 amended, witness: a concrete candidate without valid_until
validates identically at two different clock instants. -/
theorem validateCandidate_clock_independent_witness :
    ({ price := some 1000, currency := some "USD" } : Candidate).valid_until = none
    ∧ validateCandidate { price := some 1000, currency := some "USD" } {} 0 =
      validateCandidate { price := some 1000, currency := some "USD" } {} 5 :=
  ⟨rfl, validateCandidate_clock_independent
    { price := some 1000, currency := some "USD" } {} 0 5 rfl⟩

/-- C10: a candidate whose confidence_score is absent or 0 is given
confidence 0, and when it has no validation issues (and the auto-accept
threshold in effect is positive, as it is by default) the result is
valid = true with outcome REJECT. -/
theorem zero_confidence_rejected (c : Candidate) (opts : ValidationOpts) (now : ℤ)
    (hconf : c.confidence_score = none ∨ c.confidence_score = some 0)
    (hth : 0 < jsOrQ opts.auto_accept_threshold DEFAULT_AUTO_ACCEPT)
    (hiss : (validateCandidate c opts now).issues = []) :
    (validateCandidate c opts now).confidence = 0
    ∧ (validateCandidate c opts now).valid = true
    ∧ (validateCandidate c opts now).outcome = "REJECT" := by
  have hc : jsOrQ c.confidence_score 0 = 0 := by
    rcases hconf with h | h <;> simp [jsOrQ, h]
  have hi : computeIssues c opts now = [] := hiss
  have h05 : (0:ℚ) < DEFAULT_FLAG_REVIEW := by norm_num [DEFAULT_FLAG_REVIEW]
  have hth2 : ¬ ((0:ℚ) ≥ jsOrQ opts.auto_accept_threshold DEFAULT_AUTO_ACCEPT) :=
    not_le.mpr hth
  unfold validateCandidate
  rw [hi, hc]
  simp [hth2, h05]

/-- C10 witness: a clean candidate with no confidence_score field is
valid yet rejected under the default options. -/
theorem zero_confidence_rejected_witness :
    (({ price := some 100, currency := some "USD" } : Candidate).confidence_score = none
      ∨ ({ price := some 100, currency := some "USD" } : Candidate).confidence_score = some 0)
    ∧ 0 < jsOrQ ({} : ValidationOpts).auto_accept_threshold DEFAULT_AUTO_ACCEPT
    ∧ (validateCandidate { price := some 100, currency := some "USD" } {} 0).issues = []
    ∧ (validateCandidate { price := some 100, currency := some "USD" } {} 0).confidence = 0
    ∧ (validateCandidate { price := some 100, currency := some "USD" } {} 0).valid = true
    ∧ (validateCandidate { price := some 100, currency := some "USD" } {} 0).outcome = "REJECT" := by
  refine ⟨Or.inl rfl, by decide, by decide, ?_⟩
  have h := zero_confidence_rejected { price := some 100, currency := some "USD" } {} 0
    (Or.inl rfl) (by decide) (by decide)
  exact ⟨h.1, h.2.1, h.2.2⟩

end FreightRates
